import Mathlib

/-!
Verification of the adapter module of the `bluer` repository (src/src/adapter.rs):
a shallow embedding of its path parsing, discovery-session slot machine,
discovery-filter serialization, adapter property table and event filtering,
together with theorems settling the specification's claims about them.

Rust strings are embedded as lists of characters (`Str`); the paths involved
are ASCII, so Rust's byte indices and character indices coincide.
-/

/-- Rust string slices are embedded as lists of characters. -/
abbrev Str := List Char

/-- The constant `PREFIX` of adapter.rs: the D-Bus object path root under which
all adapter objects live (`/org/bluez/`). -/
def PATH_ROOT : Str := "/org/bluez/".toList

/-- Embedding of Rust `str::find` for a single character: the index of the first
occurrence, if any. -/
def strFind (s : Str) (c : Char) : Option Nat :=
  match s with
  | [] => none
  | x :: xs => if x = c then some 0 else (strFind xs c).map (· + 1)

/-- Rust slice `s[0..j]`: `none` models the panic on an out-of-bounds index. -/
def rustSliceTo (s : Str) (j : Nat) : Option Str :=
  if j ≤ s.length then some (s.take j) else none

/-- Rust slice `s[i..]`: `none` models the panic on an out-of-bounds index. -/
def rustSliceFrom (s : Str) (i : Nat) : Option Str :=
  if i ≤ s.length then some (s.drop i) else none

/-- Embedding of Rust `str::strip_prefix`. -/
def stripPfx (pre s : Str) : Option Str :=
  if pre.isPrefixOf s then some (s.drop pre.length) else none

/-- Embedding of `Adapter::parse_dbus_path_prefix` with explicit bounds checks:
the outer `none` marks an out-of-bounds slice (a panic of the Rust code), the
inner option is the function's own result. Mirrors the source: strip the root
`PREFIX`, find the first `/` of the remainder (`p.find('/')`, defaulting to
`p.len()`), split there into `(&p[0..sep], &p[sep..])`. -/
def Adapter.parse_dbus_path_pfxChecked (path : Str) : Option (Option (Str × Str)) :=
  match stripPfx PATH_ROOT path with
  | some p =>
    let sep := (strFind p '/').getD p.length
    match rustSliceTo p sep, rustSliceFrom p sep with
    | some a, some r => some (some (a, r))
    | _, _ => none
  | none => some none

/-- Embedding of `Adapter::parse_dbus_path_prefix` (the panic case collapses to
`none`; `adapter_parse_never_panics` shows it does not occur). -/
def Adapter.parse_dbus_path_pfx (path : Str) : Option (Str × Str) :=
  match Adapter.parse_dbus_path_pfxChecked path with
  | some r => r
  | none => none

/-- Embedding of `Adapter::parse_dbus_path`: accept only an empty remainder. -/
def Adapter.parse_dbus_path (path : Str) : Option Str :=
  match Adapter.parse_dbus_path_pfx path with
  | some (v, []) => some v
  | _ => none

/-- Validity of one D-Bus path element, as the `dbus` crate's `Path::new`
checks it for the name appended to `PREFIX`: nonempty, characters from
`[A-Za-z0-9_]`. -/
def validElement (s : Str) : Bool :=
  !s.isEmpty && s.all fun c => (c.isAlpha || c.isDigit || c = '_')

/-- Embedding of `Adapter::dbus_path`: `Path::new(format!("{}{}", PREFIX, adapter_name))`,
with the `dbus` crate's path validation as the error case. -/
def Adapter.dbus_path (adapter_name : Str) : Option Str :=
  if validElement adapter_name then some (PATH_ROOT ++ adapter_name) else none

/- ### Addresses (spec-modelled) -/

/-- Modelled from the spec: the `Address` type is not under src/; spec §3 calls it
"a 48-bit hardware identifier", displayed as six two-digit hexadecimal octets
separated by `:` and embedded into device paths with the separators replaced. -/
structure Address where
  b0 : Fin 256
  b1 : Fin 256
  b2 : Fin 256
  b3 : Fin 256
  b4 : Fin 256
  b5 : Fin 256
  deriving DecidableEq

/-- Uppercase hexadecimal digit for a value below 16. -/
def hexDigitU (n : Fin 16) : Char :=
  if n.val < 10 then Char.ofNat (48 + n.val) else Char.ofNat (55 + n.val)

/-- High nibble of a byte. -/
def byteHi (b : Fin 256) : Fin 16 :=
  ⟨b.val / 16, by omega⟩

/-- Low nibble of a byte. -/
def byteLo (b : Fin 256) : Fin 16 :=
  ⟨b.val % 16, Nat.mod_lt _ (by omega)⟩

/-- Modelled from the spec: the display form of an address,
`HH:HH:HH:HH:HH:HH` with uppercase hexadecimal octets. -/
def Address.chars (a : Address) : Str :=
  [hexDigitU (byteHi a.b0), hexDigitU (byteLo a.b0), ':',
   hexDigitU (byteHi a.b1), hexDigitU (byteLo a.b1), ':',
   hexDigitU (byteHi a.b2), hexDigitU (byteLo a.b2), ':',
   hexDigitU (byteHi a.b3), hexDigitU (byteLo a.b3), ':',
   hexDigitU (byteHi a.b4), hexDigitU (byteLo a.b4), ':',
   hexDigitU (byteHi a.b5), hexDigitU (byteLo a.b5)]

/-- Modelled from the spec: `Address`'s string form as a Lean `String`
(used for the `connect_device` argument dictionary). -/
def Address.display (a : Address) : String :=
  ⟨a.chars⟩

/-- Value of one hexadecimal digit character (both cases accepted). -/
def hexVal (c : Char) : Option (Fin 16) :=
  if h : 48 ≤ c.toNat ∧ c.toNat ≤ 57 then some ⟨c.toNat - 48, by omega⟩
  else if h : 65 ≤ c.toNat ∧ c.toNat ≤ 70 then some ⟨c.toNat - 55, by omega⟩
  else if h : 97 ≤ c.toNat ∧ c.toNat ≤ 102 then some ⟨c.toNat - 87, by omega⟩
  else none

/-- Parse one byte from two hexadecimal digit characters. -/
def parseByte (c1 c2 : Char) : Option (Fin 256) :=
  match hexVal c1, hexVal c2 with
  | some h, some l => some ⟨h.val * 16 + l.val, by omega⟩
  | _, _ => none

/-- Modelled from the spec: parsing an address from its display form, six
two-digit hexadecimal octets separated by `:`. -/
def parseAddress (s : Str) : Option Address :=
  match s with
  | [a1, a2, s1, b1, b2, s2, c1, c2, s3, d1, d2, s4, e1, e2, s5, f1, f2] =>
    if s1 = ':' ∧ s2 = ':' ∧ s3 = ':' ∧ s4 = ':' ∧ s5 = ':' then
      match parseByte a1 a2, parseByte b1 b2, parseByte c1 c2,
            parseByte d1 d2, parseByte e1 e2, parseByte f1 f2 with
      | some x0, some x1, some x2, some x3, some x4, some x5 =>
        some ⟨x0, x1, x2, x3, x4, x5⟩
      | _, _, _, _, _, _ => none
    else none
  | _ => none

/-- Replacement of `:` by `_` (an address embedded into a device path). -/
def colonToUnderscore (c : Char) : Char :=
  if c = ':' then '_' else c

/-- Replacement of `_` by `:` (recovering an address from a device path). -/
def underscoreToColon (c : Char) : Char :=
  if c = '_' then ':' else c

/-- Modelled from the spec: `Device::dbus_path` is not under src/; spec §6 states
device paths are `<adapter-path>/dev_<address-with-separators-replaced>`. -/
def Device.dbus_path (adapter_name : Str) (addr : Address) : Str :=
  PATH_ROOT ++ adapter_name ++ ("/dev_".toList ++ addr.chars.map colonToUnderscore)

/-- Modelled from the spec: `Device::parse_dbus_path` is not under src/; it
decomposes a device path into its (adapter, address) pair by splitting off the
adapter segment with `Adapter::parse_dbus_path_prefix`, requiring a `/dev_`
component and reading back the separator-replaced address; every valid device
path decomposes uniquely, any other path is rejected (spec §3, §6). -/
def Device.parse_dbus_path (path : Str) : Option (Str × Address) :=
  match Adapter.parse_dbus_path_pfx path with
  | some (adapter, rest) =>
    match stripPfx "/dev_".toList rest with
    | some seg =>
      match parseAddress (seg.map underscoreToColon) with
      | some addr => some (adapter, addr)
      | none => none
    | none => none
  | none => none

/- ### Path parsing lemmas -/

theorem strFind_lt_length {s : Str} {c : Char} {i : Nat} (h : strFind s c = some i) :
    i < s.length := by
  induction s generalizing i with
  | nil => simp [strFind] at h
  | cons x xs ih =>
    simp only [strFind] at h
    split at h
    · simp only [Option.some.injEq] at h
      simp only [List.length_cons]
      omega
    · match hx : strFind xs c with
      | none => rw [hx] at h; simp at h
      | some j =>
        rw [hx] at h
        simp only [Option.map_some', Option.some.injEq] at h
        have := ih hx
        simp only [List.length_cons]
        omega

theorem strFind_getD_le (s : Str) (c : Char) :
    (strFind s c).getD s.length ≤ s.length := by
  match h : strFind s c with
  | none => simp
  | some i => simpa using Nat.le_of_lt (strFind_lt_length h)

theorem strFind_append_of_not_mem {l : Str} {c : Char} (h : c ∉ l) (r : Str) :
    strFind (l ++ r) c = (strFind r c).map (· + l.length) := by
  induction l with
  | nil => simp [Option.map_id']
  | cons x xs ih =>
    have hx : ¬ x = c := fun hc => h (hc ▸ List.mem_cons_self x xs)
    have hxs : c ∉ xs := fun hc => h (List.mem_cons_of_mem x hc)
    rw [List.cons_append]
    rw [show strFind (x :: (xs ++ r)) c
          = if x = c then some 0 else (strFind (xs ++ r) c).map (· + 1) from rfl]
    rw [if_neg hx, ih hxs]
    cases hr : strFind r c with
    | none => simp
    | some a =>
      simp only [Option.map_some', Option.some.injEq, List.length_cons]
      omega

theorem strFind_not_mem {l : Str} {c : Char} (h : c ∉ l) :
    strFind l c = none := by
  induction l with
  | nil => rfl
  | cons x xs ih =>
    have hx : ¬ x = c := fun hc => h (hc ▸ List.mem_cons_self x xs)
    have hxs : c ∉ xs := fun hc => h (List.mem_cons_of_mem x hc)
    simp [strFind, if_neg hx, ih hxs]

theorem stripPfx_append (pre s : Str) : stripPfx pre (pre ++ s) = some s := by
  simp [stripPfx, List.isPrefixOf_iff_prefix, List.prefix_append, List.drop_left]

/-- On a path under the root, the parser returns the remainder split at its
first `/`, no panic occurring. -/
theorem parse_pfx_checked_append (rest : Str) :
    Adapter.parse_dbus_path_pfxChecked (PATH_ROOT ++ rest) =
      some (some (rest.take ((strFind rest '/').getD rest.length),
                  rest.drop ((strFind rest '/').getD rest.length))) := by
  have hle := strFind_getD_le rest '/'
  simp [Adapter.parse_dbus_path_pfxChecked, stripPfx_append, rustSliceTo, rustSliceFrom, hle]

theorem parse_pfx_append (rest : Str) :
    Adapter.parse_dbus_path_pfx (PATH_ROOT ++ rest) =
      some (rest.take ((strFind rest '/').getD rest.length),
            rest.drop ((strFind rest '/').getD rest.length)) := by
  simp [Adapter.parse_dbus_path_pfx, parse_pfx_checked_append]

theorem parse_pfx_no_slash {name : Str} (h : '/' ∉ name) :
    Adapter.parse_dbus_path_pfx (PATH_ROOT ++ name) = some (name, []) := by
  rw [parse_pfx_append, strFind_not_mem h]
  simp

theorem parse_pfx_with_slash {name : Str} (h : '/' ∉ name) (rest : Str) :
    Adapter.parse_dbus_path_pfx (PATH_ROOT ++ name ++ '/' :: rest) =
      some (name, '/' :: rest) := by
  rw [List.append_assoc, parse_pfx_append]
  rw [strFind_append_of_not_mem h]
  simp [strFind, List.take_left, List.drop_left]

/-- A valid adapter name contains no `/`. -/
theorem validElement_no_slash {name : Str} (h : validElement name = true) : '/' ∉ name := by
  intro hm
  simp only [validElement, Bool.and_eq_true, List.all_eq_true] at h
  have := h.2 '/' hm
  simp at this

theorem hexVal_hexDigitU : ∀ d : Fin 16, hexVal (hexDigitU d) = some d := by
  decide

theorem parseByte_hex (b : Fin 256) :
    parseByte (hexDigitU (byteHi b)) (hexDigitU (byteLo b)) = some b := by
  simp only [parseByte, hexVal_hexDigitU, byteHi, byteLo]
  congr 1
  apply Fin.ext
  simp only []
  omega

theorem underscoreToColon_colonToUnderscore_hex :
    ∀ d : Fin 16, underscoreToColon (colonToUnderscore (hexDigitU d)) = hexDigitU d := by
  decide

theorem addr_seg_roundtrip (a : Address) :
    parseAddress ((a.chars.map colonToUnderscore).map underscoreToColon) = some a := by
  simp only [Address.chars, List.map_cons, List.map_nil,
    underscoreToColon_colonToUnderscore_hex]
  have hc : underscoreToColon (colonToUnderscore ':') = ':' := by decide
  simp only [hc, parseAddress, parseByte_hex]
  simp

theorem addr_chars_no_slash (a : Address) : '/' ∉ a.chars.map colonToUnderscore := by
  intro hm
  rcases List.mem_map.mp hm with ⟨c, hc, hcu⟩
  have hd : ∀ d : Fin 16, colonToUnderscore (hexDigitU d) ≠ '/' := by decide
  have hcol : colonToUnderscore ':' ≠ '/' := by decide
  simp only [Address.chars, List.mem_cons, List.not_mem_nil, or_false] at hc
  rcases hc with h | h | h | h | h | h | h | h | h | h | h | h | h | h | h | h | h <;>
    subst h <;> simp_all

/- ### Claim C3: path construction / parsing round trip -/

/-- C3: for every valid adapter name and every device address, parsing the
device path constructed from the pair yields back exactly the pair, and
`Adapter::parse_dbus_path_prefix` applied to the constructed adapter path
returns the name with an empty remainder. -/
theorem device_path_roundtrip (name : Str) (addr : Address)
    (h : validElement name = true) :
    Device.parse_dbus_path (Device.dbus_path name addr) = some (name, addr) ∧
    Adapter.dbus_path name = some (PATH_ROOT ++ name) ∧
    Adapter.parse_dbus_path_pfx (PATH_ROOT ++ name) = some (name, []) := by
  have hs := validElement_no_slash h
  refine ⟨?_, by simp [Adapter.dbus_path, h], parse_pfx_no_slash hs⟩
  have h1 : Device.dbus_path name addr
      = PATH_ROOT ++ name ++ '/' :: ("dev_".toList ++ addr.chars.map colonToUnderscore) := by
    simp [Device.dbus_path]
  have h2 : ('/' : Char) :: ("dev_".toList ++ addr.chars.map colonToUnderscore)
      = "/dev_".toList ++ addr.chars.map colonToUnderscore := rfl
  rw [h1]
  simp only [Device.parse_dbus_path, parse_pfx_with_slash hs]
  rw [h2]
  simp only [stripPfx_append, addr_seg_roundtrip]

/-- C3 witness: the round trip evaluated at adapter `hci0` and address
`AA:BB:CC:DD:EE:FF`. -/
theorem device_path_roundtrip_witness :
    validElement "hci0".toList = true ∧
    Device.parse_dbus_path
        (Device.dbus_path "hci0".toList ⟨170, 187, 204, 221, 238, 255⟩)
      = some ("hci0".toList, ⟨170, 187, 204, 221, 238, 255⟩) :=
  ⟨by decide, (device_path_roundtrip "hci0".toList ⟨170, 187, 204, 221, 238, 255⟩ (by decide)).1⟩

/- ### Claim C4: parsing is total and rejects non-matching paths -/

/-- C4: the parse functions never panic (every slice they take is in bounds for
every input), any path that does not start with the adapter root yields `none`
from `parse_dbus_path_prefix`, and any path with a non-empty remainder after
the adapter segment yields `none` from the exact variant `parse_dbus_path`. -/
theorem parse_dbus_path_safe :
    (∀ path : Str, Adapter.parse_dbus_path_pfxChecked path ≠ none) ∧
    (∀ path : Str, PATH_ROOT.isPrefixOf path = false →
      Adapter.parse_dbus_path_pfx path = none) ∧
    (∀ (path a r : Str), Adapter.parse_dbus_path_pfx path = some (a, r) → r ≠ [] →
      Adapter.parse_dbus_path path = none) := by
  refine ⟨?_, ?_, ?_⟩
  · intro path
    simp only [Adapter.parse_dbus_path_pfxChecked]
    rcases hsp : stripPfx PATH_ROOT path with _ | p
    · simp
    · have hle := strFind_getD_le p '/'
      simp [rustSliceTo, rustSliceFrom, hle]
  · intro path h
    simp [Adapter.parse_dbus_path_pfx, Adapter.parse_dbus_path_pfxChecked, stripPfx, h]
  · intro path a r hpr hne
    cases r with
    | nil => exact absurd rfl hne
    | cons c t => simp [Adapter.parse_dbus_path, hpr]

/-- C4 witness: evaluated at a path outside the root and at an adapter path
with a trailing component. -/
theorem parse_dbus_path_safe_witness :
    (PATH_ROOT.isPrefixOf "/foo".toList = false ∧
      Adapter.parse_dbus_path_pfx "/foo".toList = none) ∧
    (Adapter.parse_dbus_path_pfx "/org/bluez/hci0/x".toList
        = some ("hci0".toList, "/x".toList) ∧
      Adapter.parse_dbus_path "/org/bluez/hci0/x".toList = none) :=
  ⟨⟨by decide, parse_dbus_path_safe.2.1 "/foo".toList (by decide)⟩,
   ⟨by decide,
    parse_dbus_path_safe.2.2 "/org/bluez/hci0/x".toList "hci0".toList "/x".toList
      (by decide) (by decide)⟩⟩

/- ### Discovery filter (src/src/adapter.rs lines 560-685) -/

/-- One hexadecimal digit character, either case. -/
def isHexChar (c : Char) : Bool :=
  (hexVal c).isSome

/-- Consume exactly `n` hexadecimal digit characters, returning the rest. -/
def hexChunk : Nat → Str → Option Str
  | 0, l => some l
  | _ + 1, [] => none
  | n + 1, c :: l => if isHexChar c then hexChunk n l else none

/-- Shape of a textual UUID: five groups of 8, 4, 4, 4 and 12 hexadecimal
digits separated by hyphens. -/
def uuidOk (l : Str) : Bool :=
  match hexChunk 8 l with
  | some ('-' :: r1) =>
    match hexChunk 4 r1 with
    | some ('-' :: r2) =>
      match hexChunk 4 r2 with
      | some ('-' :: r3) =>
        match hexChunk 4 r3 with
        | some ('-' :: r4) =>
          match hexChunk 12 r4 with
          | some [] => true
          | _ => false
        | _ => false
      | _ => false
    | _ => false
  | _ => false

/-- Modelled from the spec: the `uuid` crate's `Uuid` is not under src/; a UUID
is kept as its textual form, a value the parser accepted. -/
def Uuid := {l : Str // uuidOk l = true}

instance : DecidableEq Uuid :=
  Subtype.instDecidableEq

/-- Modelled from the spec: `Uuid`'s string form. -/
def Uuid.str (u : Uuid) : String :=
  ⟨u.1⟩

/-- Modelled from the spec: `Uuid::parse` (`uuid.parse()` in adapter.rs),
accepting exactly the hyphenated shape. -/
def parseUuid (l : Str) : Option Uuid :=
  if h : uuidOk l then some ⟨l, h⟩ else none

/-- The dynamically-typed D-Bus variant values exchanged with the daemon
(`Variant<Box<dyn RefArg>>`), restricted to the shapes adapter.rs sends or
receives. -/
inductive WireValue where
  | str (s : String)
  | bool (b : Bool)
  | u8 (n : Nat)
  | u16 (n : Nat)
  | u32 (n : Nat)
  | i16 (n : Int)
  | strList (l : List String)
  | dict (entries : List (String × WireValue))

/-- Embedding of `DiscoveryTransport` (adapter.rs lines 561-572). -/
inductive DiscoveryTransport where
  | auto
  | brEdr
  | le
  deriving DecidableEq

/-- The strum serializations of `DiscoveryTransport` (adapter.rs lines 564-571). -/
def DiscoveryTransport.str : DiscoveryTransport → String
  | .auto => "auto"
  | .brEdr => "bredr"
  | .le => "le"

/-- Embedding of `impl Default for DiscoveryTransport` (adapter.rs lines 574-578). -/
def DiscoveryTransport.dflt : DiscoveryTransport :=
  DiscoveryTransport.auto

/-- Embedding of `DiscoveryFilter` (adapter.rs lines 580-650). The
`HashSet<Uuid>` field is embedded as the list of its elements in iteration
order. -/
structure DiscoveryFilter where
  uuids : List Uuid
  rssi : Option Int
  pathloss : Option Nat
  transport : DiscoveryTransport
  duplicate_data : Bool
  discoverable : Bool
  pattern : Option String

/-- Embedding of `impl Default for DiscoveryFilter` (adapter.rs lines 652-664):
every field takes its type's default except `duplicate_data: true` and
`discoverable: false`, written explicitly there. -/
def DiscoveryFilter.dflt : DiscoveryFilter where
  uuids := []
  rssi := none
  pathloss := none
  transport := DiscoveryTransport.dflt
  duplicate_data := true
  discoverable := false
  pattern := none

/-- Embedding of `DiscoveryFilter::to_dict` (adapter.rs lines 667-685). The
`HashMap` is embedded as an association list in insertion order; all inserted
keys are distinct, so each `HashMap::insert` is an append. -/
def DiscoveryFilter.to_dict (f : DiscoveryFilter) : List (String × WireValue) :=
  let hm : List (String × WireValue) := []
  let hm := hm ++ [("UUIDs", WireValue.strList (f.uuids.map Uuid.str))]
  let hm := match f.rssi with
    | some rssi => hm ++ [("RSSI", WireValue.i16 rssi)]
    | none => hm
  let hm := match f.pathloss with
    | some pathloss => hm ++ [("Pathloss", WireValue.u16 pathloss)]
    | none => hm
  let hm := hm ++ [("Transport", WireValue.str f.transport.str)]
  let hm := hm ++ [("DuplicateData", WireValue.bool f.duplicate_data)]
  let hm := hm ++ [("Discoverable", WireValue.bool f.discoverable)]
  match f.pattern with
  | some pattern => hm ++ [("Pattern", WireValue.str pattern)]
  | none => hm

/- ### Claim C10: the default discovery filter -/

/-- C10: `DiscoveryFilter::default()` is exactly the filter with an empty UUID
set, no RSSI or pathloss threshold, transport `Auto`, `duplicate_data = true`,
`discoverable = false` and no pattern; in particular duplicate-data suppression
is disabled by default. -/
theorem discovery_filter_default_eq :
    DiscoveryFilter.dflt =
      { uuids := [], rssi := none, pathloss := none,
        transport := DiscoveryTransport.auto, duplicate_data := true,
        discoverable := false, pattern := none } ∧
    DiscoveryFilter.dflt.duplicate_data = true :=
  ⟨rfl, rfl⟩

/- ### Claim C5: the discovery filter wire dictionary -/

/-- C5: for every filter, `to_dict` contains the keys `UUIDs`, `Transport`,
`DuplicateData`, `Discoverable` always, `RSSI`/`Pathloss`/`Pattern` exactly
when the corresponding field is set, and no other keys; the default filter
serializes to exactly the four unconditional entries. -/
theorem discovery_filter_to_dict_keys :
    (∀ f : DiscoveryFilter,
      f.to_dict.map Prod.fst
        = ["UUIDs"]
          ++ (match f.rssi with | some _ => ["RSSI"] | none => [])
          ++ (match f.pathloss with | some _ => ["Pathloss"] | none => [])
          ++ ["Transport", "DuplicateData", "Discoverable"]
          ++ (match f.pattern with | some _ => ["Pattern"] | none => []) ∧
      f.to_dict.lookup "UUIDs" = some (WireValue.strList (f.uuids.map Uuid.str)) ∧
      f.to_dict.lookup "RSSI" = f.rssi.map WireValue.i16 ∧
      f.to_dict.lookup "Pathloss" = f.pathloss.map WireValue.u16 ∧
      f.to_dict.lookup "Transport" = some (WireValue.str f.transport.str) ∧
      f.to_dict.lookup "DuplicateData" = some (WireValue.bool f.duplicate_data) ∧
      f.to_dict.lookup "Discoverable" = some (WireValue.bool f.discoverable) ∧
      f.to_dict.lookup "Pattern" = f.pattern.map WireValue.str) ∧
    DiscoveryFilter.dflt.to_dict
      = [("UUIDs", WireValue.strList []),
         ("Transport", WireValue.str "auto"),
         ("DuplicateData", WireValue.bool true),
         ("Discoverable", WireValue.bool false)] := by
  constructor
  · intro f
    obtain ⟨u, rssi, pl, tr, dd, dv, pat⟩ := f
    rcases rssi with _ | r <;> rcases pl with _ | p <;> rcases pat with _ | q <;>
      simp [DiscoveryFilter.to_dict, List.lookup]
  · rfl

/- ### Discovery session slots (src/src/adapter.rs lines 158-170 and 701-727) -/

/-- Result of one `discover_devices` call: a new session (identified by the
completion signal it registered) or the conflict error
`Error::AnotherDiscoveryInProgress`. -/
inductive DiscoverOutcome where
  | session (id : Nat)
  | anotherDiscoveryInProgress
  deriving DecidableEq

/-- The D-Bus method calls the discovery machinery issues. -/
inductive DbusCall where
  | setDiscoveryFilter (dict : List (String × WireValue))
  | startDiscovery
  | stopDiscovery

/-- State of the per-adapter discovery slots: `slots` is the mutex-guarded
`discovery_slots: HashMap<String, oneshot::Receiver<()>>` of `SessionInner`,
each receiver identified by a session number; `fired j` says whether session
`j`'s completion signal has fired (its cleanup task finished and dropped
`done_tx`, so `try_recv` no longer returns `Ok(None)`); `nextId` numbers the
sessions. -/
@[ext]
structure DiscState where
  slots : String → Option Nat
  fired : Nat → Bool
  nextId : Nat

/-- `HashMap::insert`. -/
def mapInsert {α : Type} (m : String → Option α) (k : String) (v : α) :
    String → Option α :=
  fun q => if q = k then some v else m q

/-- `HashMap::remove`. -/
def mapRemove {α : Type} (m : String → Option α) (k : String) :
    String → Option α :=
  fun q => if q = k then none else m q

/-- The initial state: no slots, no signal fired. -/
def initDisc : DiscState where
  slots := fun _ => none
  fired := fun _ => false
  nextId := 0

/-- Events acting on the slot state: a `discover_devices` call, or the
completion of a dropped session's cleanup task (which issues StopDiscovery and
drops `done_tx`, firing the completion signal). A drop whose cleanup task has
not yet run changes nothing observable in the slot state, matching the code. -/
inductive Ev where
  | discover (name : String) (filter : DiscoveryFilter)
  | cleanupDone (id : Nat)

/-- One step's outcome: the new state, the result returned to the caller of
`discover_devices` (when the event is one), and the D-Bus calls issued. -/
@[ext]
structure StepOut where
  state : DiscState
  result : Option DiscoverOutcome
  calls : List DbusCall

/-- Success path of `DeviceDiscovery::new` (adapter.rs lines 702-720): send
`SetDiscoveryFilter(filter.to_dict())`, then `StartDiscovery`, spawn the
cleanup task holding `done_tx`, return the handle. The slot for the fresh
completion signal was inserted by the caller (`discover_devices` line 167). -/
def startSession (s : DiscState) (name : String) (filter : DiscoveryFilter) : StepOut where
  state :=
    { slots := mapInsert s.slots name s.nextId, fired := s.fired, nextId := s.nextId + 1 }
  result := some (DiscoverOutcome.session s.nextId)
  calls := [DbusCall.setDiscoveryFilter filter.to_dict, DbusCall.startDiscovery]

/-- Embedding of `Adapter::discover_devices` (adapter.rs lines 158-170) and of
the cleanup task (lines 711-717). `discover_devices`: remove the adapter's
slot; if one was present and `try_recv` returns `Ok(None)` (signal not fired),
re-insert it and fail with `AnotherDiscoveryInProgress`; otherwise drop the
stale receiver, insert a fresh one and run `DeviceDiscovery::new`. The whole
check-and-insert runs under the `discovery_slots` mutex, so it is one atomic
step here. -/
def step (s : DiscState) : Ev → StepOut
  | Ev.discover name filter =>
    match s.slots name with
    | some rxId =>
      let s1 : DiscState := { s with slots := mapRemove s.slots name }
      if s.fired rxId = false then
        { state := { s1 with slots := mapInsert s1.slots name rxId },
          result := some DiscoverOutcome.anotherDiscoveryInProgress,
          calls := [] }
      else
        startSession s1 name filter
    | none => startSession s name filter
  | Ev.cleanupDone id =>
    { state := { s with fired := fun j => if j = id then true else s.fired j },
      result := none,
      calls := [DbusCall.stopDiscovery] }

/-- The state after a sequence of events, from the initial state. -/
def runEvents (evs : List Ev) : DiscState :=
  evs.foldl (fun s e => (step s e).state) initDisc

/-- A live slot entry: registered for the adapter name and its completion
signal not yet fired. -/
def live (s : DiscState) (name : String) (id : Nat) : Prop :=
  s.slots name = some id ∧ s.fired id = false

/- ### Claim C1: at most one live discovery session per adapter name -/

/-- C1: after any sequence of `discover_devices` calls and session-handle
drops, the slot map holds at most one live (completion-signal-not-yet-fired)
entry per adapter name, and while such an entry is live every further
`discover_devices` call for that adapter fails with the conflict error and
leaves the state unchanged. -/
theorem discovery_slot_exclusive :
    (∀ (evs : List Ev) (name : String) (id id' : Nat),
      live (runEvents evs) name id → live (runEvents evs) name id' → id = id') ∧
    (∀ (evs : List Ev) (name : String) (filter : DiscoveryFilter) (id : Nat),
      live (runEvents evs) name id →
      (step (runEvents evs) (Ev.discover name filter)).result
          = some DiscoverOutcome.anotherDiscoveryInProgress ∧
      (step (runEvents evs) (Ev.discover name filter)).state = runEvents evs) := by
  constructor
  · intro evs name id id' h h'
    have := h.1.symm.trans h'.1
    exact Option.some.inj this
  · intro evs name filter id h
    obtain ⟨hslot, hfired⟩ := h
    constructor
    · simp only [step, hslot, hfired, if_pos]
    · simp only [step, hslot, hfired, if_pos]
      ext q
      · simp only [mapInsert, mapRemove]
        by_cases hq : q = name
        · subst hq; simp [hslot]
        · simp [hq]
      · rfl
      · rfl

/-- C1 witness: after one successful discovery on `hci0`, its slot is live and
a second call fails. -/
theorem discovery_slot_exclusive_witness :
    live (runEvents [Ev.discover "hci0" DiscoveryFilter.dflt]) "hci0" 0 ∧
    (step (runEvents [Ev.discover "hci0" DiscoveryFilter.dflt])
        (Ev.discover "hci0" DiscoveryFilter.dflt)).result
      = some DiscoverOutcome.anotherDiscoveryInProgress := by
  have hlive : live (runEvents [Ev.discover "hci0" DiscoveryFilter.dflt]) "hci0" 0 :=
    ⟨by decide, by decide⟩
  exact ⟨hlive,
    (discovery_slot_exclusive.2 [Ev.discover "hci0" DiscoveryFilter.dflt]
      "hci0" DiscoveryFilter.dflt 0 hlive).1⟩

/- ### Claim C2: conflict when pending, fresh start when stale -/

/-- C2: with a slot registered for the adapter, `discover_devices` fails with
the conflict error and leaves the state unchanged while the slot's completion
signal has not fired; once it has fired, the stale slot is discarded and the
call behaves exactly as from the idle state: it sends `SetDiscoveryFilter`
then `StartDiscovery`, registers a fresh completion signal and returns a new
session handle. -/
theorem discover_devices_conflict_or_stale (s : DiscState) (name : String)
    (filter : DiscoveryFilter) (id : Nat) (hslot : s.slots name = some id) :
    (s.fired id = false →
      step s (Ev.discover name filter)
        = ⟨s, some DiscoverOutcome.anotherDiscoveryInProgress, []⟩) ∧
    (s.fired id = true →
      step s (Ev.discover name filter)
          = step { s with slots := mapRemove s.slots name } (Ev.discover name filter) ∧
      step s (Ev.discover name filter)
          = ⟨⟨mapInsert (mapRemove s.slots name) name s.nextId, s.fired, s.nextId + 1⟩,
             some (DiscoverOutcome.session s.nextId),
             [DbusCall.setDiscoveryFilter filter.to_dict, DbusCall.startDiscovery]⟩) := by
  constructor
  · intro hfired
    simp only [step, hslot, hfired, if_pos]
    apply StepOut.ext
    · ext q
      · simp only [mapInsert, mapRemove]
        by_cases hq : q = name
        · subst hq; simp [hslot]
        · simp [hq]
      · rfl
      · rfl
    · rfl
    · rfl
  · intro hfired
    have hrm : mapRemove s.slots name name = none := by simp [mapRemove]
    constructor
    · simp [step, hslot, hfired, hrm, startSession]
    · simp [step, hslot, hfired, hrm, startSession]

/-- C2 witness: a second call on `hci0` while the first session is live
returns the conflict error; after the first session's cleanup completed, a
further call returns a fresh session. -/
theorem discover_devices_conflict_or_stale_witness :
    (step (runEvents [Ev.discover "hci0" DiscoveryFilter.dflt])
        (Ev.discover "hci0" DiscoveryFilter.dflt)
      = ⟨runEvents [Ev.discover "hci0" DiscoveryFilter.dflt],
         some DiscoverOutcome.anotherDiscoveryInProgress, []⟩) ∧
    (step (runEvents [Ev.discover "hci0" DiscoveryFilter.dflt, Ev.cleanupDone 0])
        (Ev.discover "hci0" DiscoveryFilter.dflt)).result
      = some (DiscoverOutcome.session 1) := by
  constructor
  · exact (discover_devices_conflict_or_stale
      (runEvents [Ev.discover "hci0" DiscoveryFilter.dflt]) "hci0"
      DiscoveryFilter.dflt 0 (by decide)).1 (by decide)
  · have h := ((discover_devices_conflict_or_stale
      (runEvents [Ev.discover "hci0" DiscoveryFilter.dflt, Ev.cleanupDone 0]) "hci0"
      DiscoveryFilter.dflt 0 (by decide)).2 (by decide)).2
    rw [h]
    decide

/- ### Adapter property table (src/src/adapter.rs lines 296-549) -/

/-- Modelled from the spec: `AddressType` is not under src/; a Bluetooth
address kind with the strum forms `public` and `random`. -/
inductive AddressType where
  | publicAddr
  | randomAddr
  deriving DecidableEq

/-- Modelled from the spec: `AddressType`'s strum string form. -/
def AddressType.str : AddressType → String
  | AddressType.publicAddr => "public"
  | AddressType.randomAddr => "random"

/-- Modelled from the spec: `AddressType`'s strum parser. -/
def parseAddrType (s : String) : Option AddressType :=
  if s = "public" then some AddressType.publicAddr
  else if s = "random" then some AddressType.randomAddr
  else none

/-- Four hexadecimal digit characters as a number. -/
def hex4 (a b c d : Char) : Option Nat :=
  match hexVal a, hexVal b, hexVal c, hexVal d with
  | some x, some y, some z, some w =>
    some (((x.val * 16 + y.val) * 16 + z.val) * 16 + w.val)
  | _, _, _, _ => none

/-- Modelled from the spec: `Modalias`, "Local Device ID information in
modalias format used by the kernel and udev" — vendor, product and device
identifiers. -/
structure Modalias where
  vendor : Nat
  product : Nat
  device : Nat
  deriving DecidableEq

/-- Modelled from the spec: parsing a modalias string of the kernel shape
`usb:vVVVVpPPPPdDDDD` (hexadecimal fields, trailing text ignored). -/
def parseModalias (l : Str) : Option Modalias :=
  match l with
  | 'u' :: 's' :: 'b' :: ':' :: 'v' :: v1 :: v2 :: v3 :: v4
      :: 'p' :: p1 :: p2 :: p3 :: p4
      :: 'd' :: d1 :: d2 :: d3 :: d4 :: _ =>
    match hex4 v1 v2 v3 v4, hex4 p1 p2 p3 p4, hex4 d1 d2 d3 d4 with
    | some v, some p, some d => some ⟨v, p, d⟩
    | _, _, _ => none
  | _ => none

/-- Modelled from the spec: `LeAdvertisementFeature` (system include names),
with its strum string forms. -/
inductive LeAdvertisementFeature where
  | txPower
  | appearance
  | localName
  deriving DecidableEq

/-- Modelled from the spec: the strum parser of `LeAdvertisementFeature`. -/
def parseLeAdvFeature (s : String) : Option LeAdvertisementFeature :=
  if s = "tx-power" then some LeAdvertisementFeature.txPower
  else if s = "appearance" then some LeAdvertisementFeature.appearance
  else if s = "local-name" then some LeAdvertisementFeature.localName
  else none

/-- Modelled from the spec: `LeAdvertisementSecondaryChannel`, with its strum
string forms. -/
inductive LeAdvertisementSecondaryChannel where
  | oneM
  | twoM
  | coded
  deriving DecidableEq

/-- Modelled from the spec: the strum parser of
`LeAdvertisementSecondaryChannel`. -/
def parseLeSecChannel (s : String) : Option LeAdvertisementSecondaryChannel :=
  if s = "1M" then some LeAdvertisementSecondaryChannel.oneM
  else if s = "2M" then some LeAdvertisementSecondaryChannel.twoM
  else if s = "Coded" then some LeAdvertisementSecondaryChannel.coded
  else none

/-- Modelled from the spec: `LeAdvertisingFeature` (platform feature names),
with its strum string forms. -/
inductive LeAdvertisingFeature where
  | canSetTxPower
  | hardwareOffload
  deriving DecidableEq

/-- Modelled from the spec: the strum parser of `LeAdvertisingFeature`. -/
def parseLeAdvertisingFeature (s : String) : Option LeAdvertisingFeature :=
  if s = "CanSetTxPower" then some LeAdvertisingFeature.canSetTxPower
  else if s = "HardwareOffload" then some LeAdvertisingFeature.hardwareOffload
  else none

/-- Modelled from the spec: `LeAdvertisingCapabilities`, advertising-related
controller capabilities read from a nested dictionary. -/
structure LeAdvertisingCapabilities where
  maxAdvLen : Option Nat
  maxScnRspLen : Option Nat
  deriving DecidableEq

/-- Modelled from the spec: `LeAdvertisingCapabilities::from_dict`, reading
the optional byte fields and ignoring unknown keys. -/
def capsFromDict (d : List (String × WireValue)) : LeAdvertisingCapabilities where
  maxAdvLen :=
    match d.lookup "MaxAdvLen" with
    | some (WireValue.u8 n) => some n
    | _ => none
  maxScnRspLen :=
    match d.lookup "MaxScnRspLen" with
    | some (WireValue.u8 n) => some n
    | _ => none

/-- Presence requirement of a declared property, the MANDATORY / OPTIONAL
markers of `define_properties!`. -/
inductive Presence where
  | mandatory
  | optional
  deriving DecidableEq

/-- The adapter properties declared in `define_properties!(Adapter, ...)`
(adapter.rs lines 296-549), one variant per `property(...)` entry. -/
inductive AdapterPropertyKind where
  | address
  | addressType
  | systemName
  | alias
  | deviceClass
  | powered
  | discoverable
  | pairable
  | pairableTimeout
  | discoverableTimeout
  | discovering
  | uuids
  | modalias
  | activeAdvertisingInstances
  | supportedAdvertisingInstances
  | supportedAdvertisingSystemIncludes
  | supportedAdvertisingSecondaryChannels
  | supportedAdvertisingCapabilities
  | supportedAdvertisingFeatures
  deriving DecidableEq

/-- The D-Bus property name of each declared property (the second element of
each `dbus: (...)` tuple in src). -/
def dbusName : AdapterPropertyKind → String
  | AdapterPropertyKind.address => "Address"
  | AdapterPropertyKind.addressType => "AddressType"
  | AdapterPropertyKind.systemName => "Name"
  | AdapterPropertyKind.alias => "Alias"
  | AdapterPropertyKind.deviceClass => "Class"
  | AdapterPropertyKind.powered => "Powered"
  | AdapterPropertyKind.discoverable => "Discoverable"
  | AdapterPropertyKind.pairable => "Pairable"
  | AdapterPropertyKind.pairableTimeout => "PairableTimeout"
  | AdapterPropertyKind.discoverableTimeout => "DiscoverableTimeout"
  | AdapterPropertyKind.discovering => "Discovering"
  | AdapterPropertyKind.uuids => "UUIDs"
  | AdapterPropertyKind.modalias => "Modalias"
  | AdapterPropertyKind.activeAdvertisingInstances => "ActiveInstances"
  | AdapterPropertyKind.supportedAdvertisingInstances => "SupportedInstances"
  | AdapterPropertyKind.supportedAdvertisingSystemIncludes => "SupportedIncludes"
  | AdapterPropertyKind.supportedAdvertisingSecondaryChannels => "SupportedSecondaryChannels"
  | AdapterPropertyKind.supportedAdvertisingCapabilities => "SupportedCapabilities"
  | AdapterPropertyKind.supportedAdvertisingFeatures => "SupportedFeatures"

/-- The presence marker of each declared property (the fourth element of each
`dbus: (...)` tuple in src). -/
def presence : AdapterPropertyKind → Presence
  | AdapterPropertyKind.uuids => Presence.optional
  | AdapterPropertyKind.modalias => Presence.optional
  | AdapterPropertyKind.supportedAdvertisingCapabilities => Presence.optional
  | AdapterPropertyKind.supportedAdvertisingFeatures => Presence.optional
  | _ => Presence.mandatory

/-- Decoded property values, one shape per declared property type. -/
inductive PropValue where
  | address (a : Address)
  | addressType (t : AddressType)
  | str (s : String)
  | u32 (n : Nat)
  | u8 (n : Nat)
  | bool (b : Bool)
  | uuidSet (l : List Uuid)
  | modalias (m : Modalias)
  | leFeatures (l : List LeAdvertisementFeature)
  | secondaryChannels (l : List LeAdvertisementSecondaryChannel)
  | advCaps (c : LeAdvertisingCapabilities)
  | advFeatures (l : List LeAdvertisingFeature)

/-- Errors of a property read: a MANDATORY property absent (protocol
violation), a wire value of the wrong type, or a present value that failed to
decode, naming the offending raw value. -/
inductive PropError where
  | protocolViolation (prop : String)
  | wrongType (prop : String)
  | invalidUuid (value : String)
  | invalidValue (value : String)
  deriving DecidableEq

/-- Embedding of the `get:` body of each `property(...)` entry (adapter.rs
lines 296-549): plain values are taken as-is; `Address`, `AddressType` and
`Modalias` go through `v.parse()?`; `Uuids` maps `uuid.parse()` with
`map_err(|_| Error::InvalidUuid(uuid.to_string()))` and collects the result;
the three advertising string-set properties use
`v.iter().filter_map(|s| s.parse().ok()).collect()`; the capabilities go
through `from_dict`. The `BTreeSet` collections are embedded as lists. -/
def decodeProp (k : AdapterPropertyKind) (w : WireValue) : Except PropError PropValue :=
  match k, w with
  | AdapterPropertyKind.address, WireValue.str s =>
    match parseAddress s.toList with
    | some a => Except.ok (PropValue.address a)
    | none => Except.error (PropError.invalidValue s)
  | AdapterPropertyKind.addressType, WireValue.str s =>
    match parseAddrType s with
    | some t => Except.ok (PropValue.addressType t)
    | none => Except.error (PropError.invalidValue s)
  | AdapterPropertyKind.systemName, WireValue.str s => Except.ok (PropValue.str s)
  | AdapterPropertyKind.alias, WireValue.str s => Except.ok (PropValue.str s)
  | AdapterPropertyKind.deviceClass, WireValue.u32 n => Except.ok (PropValue.u32 n)
  | AdapterPropertyKind.powered, WireValue.bool b => Except.ok (PropValue.bool b)
  | AdapterPropertyKind.discoverable, WireValue.bool b => Except.ok (PropValue.bool b)
  | AdapterPropertyKind.pairable, WireValue.bool b => Except.ok (PropValue.bool b)
  | AdapterPropertyKind.pairableTimeout, WireValue.u32 n => Except.ok (PropValue.u32 n)
  | AdapterPropertyKind.discoverableTimeout, WireValue.u32 n => Except.ok (PropValue.u32 n)
  | AdapterPropertyKind.discovering, WireValue.bool b => Except.ok (PropValue.bool b)
  | AdapterPropertyKind.uuids, WireValue.strList l =>
    (l.mapM fun (u : String) =>
      (match parseUuid u.toList with
       | some uu => Except.ok uu
       | none => Except.error (PropError.invalidUuid u) : Except PropError Uuid)).map
      PropValue.uuidSet
  | AdapterPropertyKind.modalias, WireValue.str s =>
    match parseModalias s.toList with
    | some m => Except.ok (PropValue.modalias m)
    | none => Except.error (PropError.invalidValue s)
  | AdapterPropertyKind.activeAdvertisingInstances, WireValue.u8 n =>
    Except.ok (PropValue.u8 n)
  | AdapterPropertyKind.supportedAdvertisingInstances, WireValue.u8 n =>
    Except.ok (PropValue.u8 n)
  | AdapterPropertyKind.supportedAdvertisingSystemIncludes, WireValue.strList l =>
    Except.ok (PropValue.leFeatures (l.filterMap parseLeAdvFeature))
  | AdapterPropertyKind.supportedAdvertisingSecondaryChannels, WireValue.strList l =>
    Except.ok (PropValue.secondaryChannels (l.filterMap parseLeSecChannel))
  | AdapterPropertyKind.supportedAdvertisingCapabilities, WireValue.dict d =>
    Except.ok (PropValue.advCaps (capsFromDict d))
  | AdapterPropertyKind.supportedAdvertisingFeatures, WireValue.strList l =>
    Except.ok (PropValue.advFeatures (l.filterMap parseLeAdvertisingFeature))
  | _, _ => Except.error (PropError.wrongType (dbusName k))

/-- Modelled from the spec: the generic getter that `define_properties!`
expands to (the macro itself is not under src/): read the wire value at the
property's D-Bus name; a MANDATORY property that is absent is the protocol
violation error, an OPTIONAL property absent is the distinguishable non-error
`ok none`; a present value is decoded by the property's own `get` body. -/
def getAdapterProp (k : AdapterPropertyKind) (m : String → Option WireValue) :
    Except PropError (Option PropValue) :=
  match m (dbusName k) with
  | none =>
    match presence k with
    | Presence.mandatory => Except.error (PropError.protocolViolation (dbusName k))
    | Presence.optional => Except.ok none
  | some w => (decodeProp k w).map some

/-- A wire attribute map holding a single property value. -/
def singletonWire (k : String) (v : WireValue) : String → Option WireValue :=
  fun q => if q = k then some v else none

/- ### Claim C6: mandatory versus optional absence -/

/-- C6: reading any declared adapter property whose wire value is absent
yields the protocol-violation error exactly when the property is declared
MANDATORY (as Address, Powered and Discovering are), and the non-error "not
present" result exactly when it is declared OPTIONAL (as Uuids, Modalias and
SupportedAdvertisingFeatures are). -/
theorem adapter_property_presence :
    (∀ k : AdapterPropertyKind,
      getAdapterProp k (fun _ => none)
        = match presence k with
          | Presence.mandatory => Except.error (PropError.protocolViolation (dbusName k))
          | Presence.optional => Except.ok none) ∧
    presence AdapterPropertyKind.address = Presence.mandatory ∧
    presence AdapterPropertyKind.powered = Presence.mandatory ∧
    presence AdapterPropertyKind.discovering = Presence.mandatory ∧
    presence AdapterPropertyKind.uuids = Presence.optional ∧
    presence AdapterPropertyKind.modalias = Presence.optional ∧
    presence AdapterPropertyKind.supportedAdvertisingFeatures = Presence.optional := by
  refine ⟨fun k => ?_, rfl, rfl, rfl, rfl, rfl, rfl⟩
  cases k <;> rfl

/- ### Claim C7: decode failures (corrected) -/

/-- C7 counterexample: `SupportedIncludes` holding the unparsable entry
`garbage` does not yield a decode error — the entry is silently skipped and
the read succeeds with an empty set, contrary to the claim for every declared
property. -/
theorem adv_includes_silently_skips :
    parseLeAdvFeature "garbage" = none ∧
    getAdapterProp AdapterPropertyKind.supportedAdvertisingSystemIncludes
        (singletonWire "SupportedIncludes" (WireValue.strList ["garbage"]))
      = Except.ok (some (PropValue.leFeatures [])) :=
  ⟨rfl, rfl⟩

/-- C7 as amended: properties decoded with a fallible `parse()?` surface a
typed decode error naming the offending raw value — `UUIDs` with an
unparsable entry fails with `InvalidUuid` naming it, and `Address`,
`AddressType` and `Modalias` with an unparsable value fail naming it — while
the advertising string-set properties (`SupportedIncludes`,
`SupportedSecondaryChannels`, `SupportedFeatures`) silently skip unparsable
entries and never fail. -/
theorem property_decode_errors_amended :
    (∀ s : String, parseUuid s.toList = none →
      getAdapterProp AdapterPropertyKind.uuids
          (singletonWire "UUIDs" (WireValue.strList [s]))
        = Except.error (PropError.invalidUuid s)) ∧
    (∀ s : String, parseAddress s.toList = none →
      getAdapterProp AdapterPropertyKind.address
          (singletonWire "Address" (WireValue.str s))
        = Except.error (PropError.invalidValue s)) ∧
    (∀ s : String, parseAddrType s = none →
      getAdapterProp AdapterPropertyKind.addressType
          (singletonWire "AddressType" (WireValue.str s))
        = Except.error (PropError.invalidValue s)) ∧
    (∀ s : String, parseModalias s.toList = none →
      getAdapterProp AdapterPropertyKind.modalias
          (singletonWire "Modalias" (WireValue.str s))
        = Except.error (PropError.invalidValue s)) ∧
    (∀ l : List String,
      getAdapterProp AdapterPropertyKind.supportedAdvertisingSystemIncludes
          (singletonWire "SupportedIncludes" (WireValue.strList l))
        = Except.ok (some (PropValue.leFeatures (l.filterMap parseLeAdvFeature))) ∧
      getAdapterProp AdapterPropertyKind.supportedAdvertisingSecondaryChannels
          (singletonWire "SupportedSecondaryChannels" (WireValue.strList l))
        = Except.ok (some (PropValue.secondaryChannels (l.filterMap parseLeSecChannel))) ∧
      getAdapterProp AdapterPropertyKind.supportedAdvertisingFeatures
          (singletonWire "SupportedFeatures" (WireValue.strList l))
        = Except.ok (some (PropValue.advFeatures (l.filterMap parseLeAdvertisingFeature)))) := by
  refine ⟨fun s h => ?_, fun s h => ?_, fun s h => ?_, fun s h => ?_,
    fun l => ⟨rfl, rfl, rfl⟩⟩
  · simp only [String.toList] at h
    simp [getAdapterProp, decodeProp, singletonWire, dbusName, h,
      List.mapM, List.mapM.loop, Except.map]
  · simp only [String.toList] at h
    simp [getAdapterProp, decodeProp, singletonWire, dbusName, h, Except.map]
  · simp [getAdapterProp, decodeProp, singletonWire, dbusName, h, Except.map]
  · simp only [String.toList] at h
    simp [getAdapterProp, decodeProp, singletonWire, dbusName, h, Except.map]

/-- C7 amended witness: the error paths evaluated at the raw value
`garbage`. -/
theorem property_decode_errors_amended_witness :
    parseUuid "garbage".toList = none ∧
    parseAddress "garbage".toList = none ∧
    getAdapterProp AdapterPropertyKind.uuids
        (singletonWire "UUIDs" (WireValue.strList ["garbage"]))
      = Except.error (PropError.invalidUuid "garbage") ∧
    getAdapterProp AdapterPropertyKind.address
        (singletonWire "Address" (WireValue.str "garbage"))
      = Except.error (PropError.invalidValue "garbage") ∧
    getAdapterProp AdapterPropertyKind.addressType
        (singletonWire "AddressType" (WireValue.str "garbage"))
      = Except.error (PropError.invalidValue "garbage") ∧
    getAdapterProp AdapterPropertyKind.modalias
        (singletonWire "Modalias" (WireValue.str "garbage"))
      = Except.error (PropError.invalidValue "garbage") :=
  ⟨by decide, by decide,
   property_decode_errors_amended.1 "garbage" (by decide),
   property_decode_errors_amended.2.1 "garbage" (by decide),
   property_decode_errors_amended.2.2.1 "garbage" (by decide),
   property_decode_errors_amended.2.2.2.1 "garbage" (by decide)⟩

/- ### Claim C8: device change event translation -/

/-- Object lifecycle events delivered by the bus (`ObjectEvent` of the crate),
restricted to what `device_changes` consumes. -/
inductive ObjectEvent where
  | added (object : Str) (interfaces : List String)
  | removed (object : Str)

/-- Embedding of `DeviceEvent` (adapter.rs lines 45-51). -/
inductive DeviceEvent where
  | added (address : Address)
  | removed (address : Address)
  deriving DecidableEq

/-- Embedding of the `filter_map` closure of `Adapter::device_changes`
(adapter.rs lines 121-135): translate an object event whose path is a device
path under this adapter into a `DeviceEvent`, drop everything else. -/
def Adapter.device_changes_map (my_name : Str) : ObjectEvent → Option DeviceEvent
  | ObjectEvent.added object _ =>
    match Device.parse_dbus_path object with
    | some (adapter, address) =>
      if adapter = my_name then some (DeviceEvent.added address) else none
    | none => none
  | ObjectEvent.removed object =>
    match Device.parse_dbus_path object with
    | some (adapter, address) =>
      if adapter = my_name then some (DeviceEvent.removed address) else none
    | none => none

/-- C8: an object-added or object-removed event whose path parses as a device
path of this adapter is emitted as `Added`/`Removed` with the decomposed
address; an event for another adapter's path, or for a path that is no device
path, produces nothing. -/
theorem device_changes_translation (my_name object : Str) (ifs : List String) :
    (∀ (adapter : Str) (address : Address),
      Device.parse_dbus_path object = some (adapter, address) →
      Adapter.device_changes_map my_name (ObjectEvent.added object ifs)
          = (if adapter = my_name then some (DeviceEvent.added address) else none) ∧
      Adapter.device_changes_map my_name (ObjectEvent.removed object)
          = (if adapter = my_name then some (DeviceEvent.removed address) else none)) ∧
    (Device.parse_dbus_path object = none →
      Adapter.device_changes_map my_name (ObjectEvent.added object ifs) = none ∧
      Adapter.device_changes_map my_name (ObjectEvent.removed object) = none) := by
  constructor
  · intro adapter address h
    constructor <;> simp [Adapter.device_changes_map, h]
  · intro h
    constructor <;> simp [Adapter.device_changes_map, h]

/-- C8 witness: the added event for `/org/bluez/hci0/dev_AA_BB_CC_DD_EE_FF`
is translated to `Added(AA:BB:CC:DD:EE:FF)` for `hci0`'s subscriber and
dropped for `hci1`'s. -/
theorem device_changes_translation_witness :
    Adapter.device_changes_map "hci0".toList
        (ObjectEvent.added "/org/bluez/hci0/dev_AA_BB_CC_DD_EE_FF".toList [])
      = some (DeviceEvent.added ⟨170, 187, 204, 221, 238, 255⟩) ∧
    Adapter.device_changes_map "hci1".toList
        (ObjectEvent.added "/org/bluez/hci0/dev_AA_BB_CC_DD_EE_FF".toList [])
      = none := by
  constructor
  · have h := ((device_changes_translation "hci0".toList
      "/org/bluez/hci0/dev_AA_BB_CC_DD_EE_FF".toList []).1 "hci0".toList
      ⟨170, 187, 204, 221, 238, 255⟩ (by decide)).1
    rw [h]
    decide
  · have h := ((device_changes_translation "hci1".toList
      "/org/bluez/hci0/dev_AA_BB_CC_DD_EE_FF".toList []).1 "hci0".toList
      ⟨170, 187, 204, 221, 238, 255⟩ (by decide)).1
    rw [h]
    decide

/- ### Claim C9: the connect_device argument dictionary -/

/-- Embedding of the argument dictionary built by `Adapter::connect_device`
(adapter.rs lines 284-293): insert `Address` with the address's string form,
insert `AddressType` only when the hint is present. The keys are distinct, so
each `HashMap::insert` is an append. -/
def Adapter.connect_device_args (address : Address) (address_type : Option AddressType) :
    List (String × String) :=
  let m : List (String × String) := []
  let m := m ++ [("Address", address.display)]
  match address_type with
  | some t => m ++ [("AddressType", t.str)]
  | none => m

/-- C9: the dictionary sent to `ConnectDevice` always holds `Address` with the
address's string form, holds `AddressType` exactly when the hint is present
(with the hint's string form), and holds nothing else. -/
theorem connect_device_args_shape (address : Address) (address_type : Option AddressType) :
    (Adapter.connect_device_args address address_type).lookup "Address"
        = some address.display ∧
    (Adapter.connect_device_args address address_type).lookup "AddressType"
        = address_type.map AddressType.str ∧
    (Adapter.connect_device_args address address_type).map Prod.fst
        = "Address" :: (match address_type with | some _ => ["AddressType"] | none => []) := by
  cases address_type <;> simp [Adapter.connect_device_args, List.lookup]
